import Mathlib

/-!
Shallow embedding of `src/server/replitAuth.ts`: session-based
authentication with a demo (email/password) path and a federated OIDC
path, a unified `isAuthenticated` middleware with transparent token
refresh, login/logout endpoints and per-domain strategy registration.

JavaScript untyped values are embedded as follows: a possibly-missing
string field is `Option String` (with `none` = `undefined`), a
possibly-missing numeric field is `Option Nat`, and JS truthiness tests
(`!x`) are made explicit (`none`, `""` and `0` are falsy).  External
collaborators (the credential validator `storage.validateCredentials`,
the identity-provider client `client.refreshTokenGrant`, and the session
store backing `req.session.destroy`) are passed in as explicit oracles
describing the outcome of the single call the code makes.
-/

namespace ReplitAuth

/-- JS truthiness for an optional string: `undefined` and `""` are falsy
(`!s` in the source). -/
def jsFalsyStr (s : Option String) : Bool :=
  match s with
  | none => true
  | some v => v = ""

/-- JS truthiness for an optional number: `undefined` and `0` are falsy
(`!n` in the source). -/
def jsFalsyNat (n : Option Nat) : Bool :=
  match n with
  | none => true
  | some v => v = 0

/-- Line 12: `const isReplitEnvironment = process.env.REPL_ID && process.env.REPL_ID.trim() !== ""`
(line 12): truthy exactly when `REPL_ID` is set, nonempty, and nonblank. -/
def isReplitEnvironment (replId : Option String) : Bool :=
  match replId with
  | none => false
  | some s => !(s = "") && !(s.trim = "")

/-- OIDC ID-token claims (`tokens.claims()`), with the fields the module
reads; `exp` is required on an ID token. -/
structure IdClaims where
  sub : Option String
  email : Option String
  first_name : Option String
  last_name : Option String
  profile_image_url : Option String
  exp : Nat
deriving DecidableEq, Repr

/-- A token-endpoint response together with its helpers: `claims()` may be
`undefined` when the response carries no ID token. -/
structure TokenResponse where
  claims : Option IdClaims
  access_token : Option String
  refresh_token : Option String
deriving DecidableEq, Repr

/-- The demo user record returned by the external credential validator
(`storage.validateCredentials`); an opaque payload from the point of
view of this module. -/
structure DemoUser where
  id : String
  email : String
deriving DecidableEq, Repr

/-- The federated principal stored by passport on the request
(`req.user`): the four token fields written by `updateUserSession`, plus
`other` standing for any further properties of the untyped object. -/
structure FedUser where
  claims : Option IdClaims
  access_token : Option String
  refresh_token : Option String
  expires_at : Option Nat
  other : List (String × String)
deriving DecidableEq, Repr

/-- Source function `updateUserSession(user, tokens)` (lines 53-61): assigns
`user.claims = tokens.claims()`, `user.access_token`,
`user.refresh_token`, and `user.expires_at = user.claims?.exp`. -/
def updateUserSession (user : FedUser) (tokens : TokenResponse) : FedUser :=
  { user with
    claims := tokens.claims
    access_token := tokens.access_token
    refresh_token := tokens.refresh_token
    expires_at := tokens.claims.map (·.exp) }

/-- What `req.user` can hold: the demo session payload attached by the
middleware, or the federated principal deserialized by passport. -/
inductive Payload where
  | demo (u : DemoUser)
  | fed (u : FedUser)
deriving DecidableEq, Repr

/-- The authentication-relevant state of a request:
`sessionUser` is `(req.session as any)?.user` (the demo payload under the
fixed session key), `fedUser` is the passport principal; per passport,
`req.isAuthenticated()` is true exactly when the principal is set. -/
structure Request where
  sessionUser : Option DemoUser
  fedUser : Option FedUser
deriving DecidableEq, Repr

/-- Passport `req.isAuthenticated()`: passport reports a request authenticated
exactly when `req.user` is set by a completed login. -/
def Request.isAuthenticatedCall (req : Request) : Bool :=
  req.fedUser.isSome

/-- Middleware verdict: `next()` was called, or a 401 response was sent. -/
inductive Decision where
  | proceed
  | unauthorized
deriving DecidableEq, Repr

/-- Outcome of the `isAuthenticated` middleware: the verdict, the value of
`req.user` afterwards, and how many refresh calls to the identity-provider
client were made while handling the request. -/
structure AuthOutcome where
  decision : Decision
  reqUser : Option Payload
  refreshCalls : Nat
deriving DecidableEq, Repr

/-- The result of the external calls inside the `try` block of the expired
branch (`getOidcConfig()` then `client.refreshTokenGrant`): either the new
token response or a thrown error. -/
abbrev RefreshOracle := Except String TokenResponse

/-- Whether the external refresh call would throw. -/
def refreshFails (r : RefreshOracle) : Bool :=
  match r with
  | .ok _ => false
  | .error _ => true

/-- The `isAuthenticated` middleware (lines 217-257).  Branches, in source
order: demo session payload present → attach it and `next()`; not in a
Replit environment → 401; `!req.isAuthenticated() || !user.expires_at` →
401; `now ≤ user.expires_at` → `next()`; no (truthy) refresh token → 401;
otherwise one refresh attempt: on success `updateUserSession` then
`next()`, on any thrown error → 401. -/
def isAuthenticated (isReplitEnv : Bool) (now : Nat)
    (refresh : RefreshOracle) (req : Request) : AuthOutcome :=
  match req.sessionUser with
  | some sessionUser =>
      { decision := .proceed, reqUser := some (.demo sessionUser), refreshCalls := 0 }
  | none =>
      if !isReplitEnv then
        { decision := .unauthorized, reqUser := req.fedUser.map .fed, refreshCalls := 0 }
      else
        match req.fedUser with
        | none =>
            { decision := .unauthorized, reqUser := none, refreshCalls := 0 }
        | some user =>
            if jsFalsyNat user.expires_at then
              { decision := .unauthorized, reqUser := some (.fed user), refreshCalls := 0 }
            else if now ≤ user.expires_at.getD 0 then
              { decision := .proceed, reqUser := some (.fed user), refreshCalls := 0 }
            else if jsFalsyStr user.refresh_token then
              { decision := .unauthorized, reqUser := some (.fed user), refreshCalls := 0 }
            else
              match refresh with
              | .ok tokenResponse =>
                  { decision := .proceed
                    reqUser := some (.fed (updateUserSession user tokenResponse))
                    refreshCalls := 1 }
              | .error _ =>
                  { decision := .unauthorized, reqUser := some (.fed user), refreshCalls := 1 }

/-- Response of `GET /api/auth/user` (lines 200-214): the demo payload if
present, else the federated principal when authenticated, else 401. -/
inductive AuthUserResponse where
  | ok (p : Payload)
  | unauthorized
deriving DecidableEq, Repr

/-- Handler of `GET /api/auth/user` (lines 200-214). -/
def getAuthUser (req : Request) : AuthUserResponse :=
  match req.sessionUser with
  | some sessionUser => .ok (.demo sessionUser)
  | none =>
      match req.fedUser with
      | some user => .ok (.fed user)
      | none => .unauthorized

/-- Response and resulting demo-session state of one handler invocation of
`POST /api/login`: HTTP status, response message, the `user` field of the
200 body, and `(req.session).user` afterwards. -/
structure LoginOutcome where
  status : Nat
  message : String
  bodyUser : Option DemoUser
  sessionUser : Option DemoUser
deriving DecidableEq, Repr

/-- Outcome of the external `storage.validateCredentials(email, password)`
call: a thrown error, no matching user, or the matching user record. -/
abbrev ValidateOracle := String → String → Except String (Option DemoUser)

/-- Handler of `POST /api/login` (lines 120-145): 400 when email or password
is JS-falsy (missing or empty), then delegate to the credential validator;
no match → 401; match → store the user in the session and answer 200; a
thrown error is caught and mapped to a fixed 500 message. -/
def postLogin (validate : ValidateOracle)
    (email password : Option String) (sessionBefore : Option DemoUser) :
    LoginOutcome :=
  if jsFalsyStr email || jsFalsyStr password then
    ⟨400, "Email и пароль обязательны", none, sessionBefore⟩
  else
    match validate (email.getD "") (password.getD "") with
    | .error _ => ⟨500, "Ошибка входа в систему", none, sessionBefore⟩
    | .ok none => ⟨401, "Неверный email или пароль", none, sessionBefore⟩
    | .ok (some user) => ⟨200, "Успешный вход в систему", some user, some user⟩

/-- One persisted session record: the demo payload under the fixed key
`user`, and the passport principal (`session.passport.user`). -/
structure SessionData where
  user : Option DemoUser
  passportUser : Option FedUser
deriving DecidableEq, Repr

/-- The external session store: session id ↦ session record. -/
abbrev SessionStore := List (String × SessionData)

/-- Store lookup by session id, as done when a later request presents the
same session cookie. -/
def storeLookup (store : SessionStore) (sid : String) : Option SessionData :=
  match store.find? (fun kv => kv.1 = sid) with
  | some kv => some kv.2
  | none => none

/-- Modelled from the spec: the Session Store collaborator behind
`req.session.destroy` (src holds only the call site; the store itself is
the external collaborator of spec §2/§4.4 that "destroys the session store
entry" and may report an error).  On success the entry is deleted; on a
reported error the deletion did not take effect. -/
def storeDestroy (store : SessionStore) (sid : String)
    (storeError : Option String) : Except String SessionStore :=
  match storeError with
  | some msg => .error msg
  | none => .ok (store.filter (fun kv => kv.1 ≠ sid))

/-- Response of one `POST /api/logout` invocation. -/
structure LogoutOutcome where
  status : Nat
  message : String
deriving DecidableEq, Repr

/-- Handler of `POST /api/logout` (lines 164-172): `req.session.destroy` with
a callback mapping a store error to 500 and success to a 200 message;
returns the response and the store as the destroy left it. -/
def postLogout (store : SessionStore) (sid : String)
    (storeError : Option String) : LogoutOutcome × SessionStore :=
  match storeDestroy store sid storeError with
  | .error _ => (⟨500, "Ошибка выхода из системы"⟩, store)
  | .ok storeAfter => (⟨200, "Успешный выход из системы"⟩, storeAfter)

/-- How a subsequent request materialises from the store: its session
payload and passport principal are whatever the store holds for the
session id (nothing, for an unknown id). -/
def loadRequest (store : SessionStore) (sid : String) : Request :=
  match storeLookup store sid with
  | none => ⟨none, none⟩
  | some d => ⟨d.user, d.passportUser⟩

/-- One registered passport strategy (lines 98-106): its `name` and
`callbackURL` options. -/
structure StrategyConfig where
  name : String
  callbackURL : String
deriving DecidableEq, Repr

/-- The strategy constructed for one domain of the loop (lines 96-108):
`name: replitauth:{domain}`, `callbackURL: https://{domain}/api/callback`. -/
def strategyFor (domain : String) : StrategyConfig :=
  ⟨"replitauth:" ++ domain, "https://" ++ domain ++ "/api/callback"⟩

/-- Registration `passport.use(strategy)`: passport keys strategies by name, so a
strategy with an already-registered name replaces that registration and a
new name is appended. -/
def passportUse (registry : List StrategyConfig) (s : StrategyConfig) :
    List StrategyConfig :=
  if registry.any (fun r => r.name = s.name) then
    registry.map (fun r => if r.name = s.name then s else r)
  else
    registry ++ [s]

/-- JS `String.prototype.split(",")` on the character list: splits at
every comma, keeping empty pieces (`"".split(",")` is `[""]`). -/
def splitComma (s : List Char) : List (List Char) :=
  match s with
  | [] => [[]]
  | c :: rest =>
    if c = ',' then [] :: splitComma rest
    else
      match splitComma rest with
      | [] => [[c]]
      | piece :: pieces => (c :: piece) :: pieces

/-- The value `process.env.REPLIT_DOMAINS!.split(",")` of lines 96-97. -/
def splitDomains (replitDomains : String) : List String :=
  (splitComma replitDomains.data).map String.mk

/-- The strategies the setup loop builds, in order: one per element of the
comma-separated `REPLIT_DOMAINS` value. -/
def registerStrategies (replitDomains : String) : List StrategyConfig :=
  (splitDomains replitDomains).map strategyFor

/-- The passport registry after `setupAuth` ran the loop. -/
def registryAfterSetup (replitDomains : String) : List StrategyConfig :=
  (registerStrategies replitDomains).foldl passportUse []

/-- A concrete credential-validator outcome table, used only to evaluate
the login handler on closed inputs. -/
def demoValidate : ValidateOracle := fun e p =>
  if e = "a@b" ∧ p = "pw" then .ok (some ⟨"u1", "a@b"⟩)
  else if e = "boom" then .error "secret exception detail"
  else .ok none

end ReplitAuth

namespace ReplitAuth

/-- C1: whenever a demo session payload is present, `isAuthenticated`
attaches exactly that payload to the request and proceeds with no refresh
call, and `GET /auth/user` returns it — independently of the environment
flag, the clock, the refresh oracle and any federated principal (so a
coexisting federated session is never consulted). -/
theorem demo_session_precedence (su : DemoUser) (fedUser : Option FedUser)
    (isReplitEnv : Bool) (now : Nat) (refresh : RefreshOracle)
    (req : Request) (h : req = ⟨some su, fedUser⟩) :
    isAuthenticated isReplitEnv now refresh req =
      { decision := .proceed, reqUser := some (.demo su), refreshCalls := 0 } ∧
    getAuthUser req = .ok (.demo su) := by
  subst h
  exact ⟨rfl, rfl⟩

/-- Witness for C1 at a concrete request carrying both a demo payload and
an expired federated principal. -/
theorem demo_session_precedence_witness :
    isAuthenticated true 1000
      (.error "network")
      ⟨some ⟨"u1", "a@b"⟩, some ⟨none, none, none, some 5, []⟩⟩ =
      { decision := .proceed, reqUser := some (.demo ⟨"u1", "a@b"⟩), refreshCalls := 0 } ∧
    getAuthUser ⟨some ⟨"u1", "a@b"⟩, some ⟨none, none, none, some 5, []⟩⟩ =
      .ok (.demo ⟨"u1", "a@b"⟩) :=
  demo_session_precedence ⟨"u1", "a@b"⟩ (some ⟨none, none, none, some 5, []⟩)
    true 1000 (.error "network") _ rfl

/-- C2: with no demo session, a federated principal carrying a (truthy,
i.e. nonzero) `expires_at` with `now ≤ expires_at` proceeds unchanged, and
no refresh call to the identity-provider client is made. -/
theorem fresh_principal_proceeds (now e : Nat) (u : FedUser)
    (refresh : RefreshOracle) (req : Request)
    (hreq : req = ⟨none, some u⟩)
    (hexp : u.expires_at = some e) (hne : e ≠ 0) (hfresh : now ≤ e) :
    isAuthenticated true now refresh req =
      { decision := .proceed, reqUser := some (.fed u), refreshCalls := 0 } := by
  subst hreq
  simp [isAuthenticated, jsFalsyNat, hexp, hne, hfresh]

/-- Witness for C2: a principal with `expires_at = now + 3600` proceeds
without any refresh call even when the refresh oracle would fail. -/
theorem fresh_principal_proceeds_witness :
    isAuthenticated true 1000 (.error "network")
      ⟨none, some ⟨none, some "at", some "rt", some 4600, []⟩⟩ =
      { decision := .proceed
        reqUser := some (.fed ⟨none, some "at", some "rt", some 4600, []⟩)
        refreshCalls := 0 } :=
  fresh_principal_proceeds 1000 4600 ⟨none, some "at", some "rt", some 4600, []⟩
    (.error "network") _ rfl rfl (by decide) (by decide)

/-- C3: with an expired federated principal (`now > expires_at`) holding a
truthy refresh token, a successful refresh overwrites the principal via
`updateUserSession` — claims, access_token and refresh_token from the new
token response, `expires_at` from its `exp` claim — and the request
proceeds. -/
theorem expired_refresh_success (now e : Nat) (u : FedUser)
    (t : TokenResponse) (req : Request)
    (hreq : req = ⟨none, some u⟩)
    (hexp : u.expires_at = some e) (hne : e ≠ 0) (hstale : e < now)
    (hrt : jsFalsyStr u.refresh_token = false) :
    isAuthenticated true now (.ok t) req =
      { decision := .proceed
        reqUser := some (.fed (updateUserSession u t))
        refreshCalls := 1 } ∧
    (updateUserSession u t).claims = t.claims ∧
    (updateUserSession u t).access_token = t.access_token ∧
    (updateUserSession u t).refresh_token = t.refresh_token ∧
    (updateUserSession u t).expires_at = t.claims.map IdClaims.exp := by
  subst hreq
  have hnotle : ¬ now ≤ e := by omega
  refine ⟨?_, rfl, rfl, rfl, rfl⟩
  simp [isAuthenticated, jsFalsyNat, hexp, hne, hnotle, hrt]

/-- Witness for C3: an expired principal refreshed by a token response
whose `exp` claim is 9999 proceeds with the overwritten fields. -/
theorem expired_refresh_success_witness :
    isAuthenticated true 1000
      (.ok ⟨some ⟨some "s", none, none, none, none, 9999⟩, some "at2", some "rt2"⟩)
      ⟨none, some ⟨none, some "at", some "rt", some 5, [("k", "v")]⟩⟩ =
      { decision := .proceed
        reqUser := some (.fed ⟨some ⟨some "s", none, none, none, none, 9999⟩,
          some "at2", some "rt2", some 9999, [("k", "v")]⟩)
        refreshCalls := 1 } ∧
    (updateUserSession ⟨none, some "at", some "rt", some 5, [("k", "v")]⟩
        ⟨some ⟨some "s", none, none, none, none, 9999⟩, some "at2", some "rt2"⟩).claims =
      some ⟨some "s", none, none, none, none, 9999⟩ ∧
    (updateUserSession ⟨none, some "at", some "rt", some 5, [("k", "v")]⟩
        ⟨some ⟨some "s", none, none, none, none, 9999⟩, some "at2", some "rt2"⟩).access_token =
      some "at2" ∧
    (updateUserSession ⟨none, some "at", some "rt", some 5, [("k", "v")]⟩
        ⟨some ⟨some "s", none, none, none, none, 9999⟩, some "at2", some "rt2"⟩).refresh_token =
      some "rt2" ∧
    (updateUserSession ⟨none, some "at", some "rt", some 5, [("k", "v")]⟩
        ⟨some ⟨some "s", none, none, none, none, 9999⟩, some "at2", some "rt2"⟩).expires_at =
      (some ⟨some "s", none, none, none, none, 9999⟩ : Option IdClaims).map IdClaims.exp :=
  expired_refresh_success 1000 5 ⟨none, some "at", some "rt", some 5, [("k", "v")]⟩
    ⟨some ⟨some "s", none, none, none, none, 9999⟩, some "at2", some "rt2"⟩
    _ rfl rfl (by decide) (by decide) (by decide)

/-- C4: for an expired federated principal (no demo session, federated
path enabled), the check returns 401 exactly when the refresh token is
absent (falsy) or the refresh call fails; at most one refresh call is ever
made, and none at all when the token is absent. -/
theorem expired_unauthorized_iff (now e : Nat) (u : FedUser)
    (refresh : RefreshOracle) (req : Request)
    (hreq : req = ⟨none, some u⟩)
    (hexp : u.expires_at = some e) (hne : e ≠ 0) (hstale : e < now) :
    ((isAuthenticated true now refresh req).decision = .unauthorized ↔
      (jsFalsyStr u.refresh_token = true ∨ refreshFails refresh = true)) ∧
    (isAuthenticated true now refresh req).refreshCalls ≤ 1 ∧
    (jsFalsyStr u.refresh_token = true →
      (isAuthenticated true now refresh req).refreshCalls = 0) := by
  subst hreq
  have hnotle : ¬ now ≤ e := by omega
  cases hft : jsFalsyStr u.refresh_token <;>
    cases refresh <;>
      simp [isAuthenticated, refreshFails, jsFalsyNat, hexp, hne, hnotle, hft]

/-- Witness for C4: an expired principal with no refresh token is rejected
with 0 refresh calls, even though the oracle would have succeeded. -/
theorem expired_unauthorized_iff_witness :
    (((isAuthenticated true 1000 (.ok ⟨none, none, none⟩)
        ⟨none, some ⟨none, none, none, some 5, []⟩⟩).decision = .unauthorized ↔
      (jsFalsyStr (none : Option String) = true ∨
        refreshFails (.ok ⟨none, none, none⟩) = true)) ∧
    (isAuthenticated true 1000 (.ok ⟨none, none, none⟩)
        ⟨none, some ⟨none, none, none, some 5, []⟩⟩).refreshCalls ≤ 1 ∧
    (jsFalsyStr (none : Option String) = true →
      (isAuthenticated true 1000 (.ok ⟨none, none, none⟩)
        ⟨none, some ⟨none, none, none, some 5, []⟩⟩).refreshCalls = 0)) :=
  expired_unauthorized_iff 1000 5 ⟨none, none, none, some 5, []⟩
    (.ok ⟨none, none, none⟩) _ rfl rfl (by decide) (by decide)

/-- C6: when the hosting-environment marker makes `isReplitEnvironment`
false (in particular when `REPL_ID` is absent), every request without a
demo session payload is rejected with 401 and no refresh call, whatever
its federated state, the clock or the oracle. -/
theorem not_replit_env_unauthorized (replId : Option String) (now : Nat)
    (refresh : RefreshOracle) (req : Request)
    (henv : isReplitEnvironment replId = false)
    (hdemo : req.sessionUser = none) :
    (isAuthenticated (isReplitEnvironment replId) now refresh req).decision =
      .unauthorized ∧
    (isAuthenticated (isReplitEnvironment replId) now refresh req).refreshCalls = 0 ∧
    isReplitEnvironment none = false := by
  obtain ⟨su, fu⟩ := req
  simp only at hdemo
  subst hdemo
  rw [henv]
  exact ⟨rfl, rfl, rfl⟩

/-- Witness for C6: marker absent, fresh authenticated federated principal
present — still 401. -/
theorem not_replit_env_unauthorized_witness :
    (isAuthenticated (isReplitEnvironment none) 1000 (.ok ⟨none, none, none⟩)
      ⟨none, some ⟨none, none, none, some 4600, []⟩⟩).decision = .unauthorized ∧
    (isAuthenticated (isReplitEnvironment none) 1000 (.ok ⟨none, none, none⟩)
      ⟨none, some ⟨none, none, none, some 4600, []⟩⟩).refreshCalls = 0 ∧
    isReplitEnvironment none = false :=
  not_replit_env_unauthorized none 1000 (.ok ⟨none, none, none⟩)
    ⟨none, some ⟨none, none, none, some 4600, []⟩⟩ rfl rfl

/-- C9: with no demo session and the federated path enabled, an
authenticated principal whose `expires_at` is absent or 0 (JS-falsy) is
rejected with 401 and no refresh attempt. -/
theorem falsy_expires_at_unauthorized (now : Nat) (refresh : RefreshOracle)
    (u : FedUser) (req : Request)
    (hreq : req = ⟨none, some u⟩)
    (hfalsy : u.expires_at = none ∨ u.expires_at = some 0) :
    isAuthenticated true now refresh req =
      { decision := .unauthorized, reqUser := some (.fed u), refreshCalls := 0 } := by
  subst hreq
  rcases hfalsy with h | h <;> simp [isAuthenticated, jsFalsyNat, h]

/-- Witness for C9: an otherwise-authenticated principal with
`expires_at = 0` is rejected without refresh. -/
theorem falsy_expires_at_unauthorized_witness :
    isAuthenticated true 1000 (.ok ⟨none, none, none⟩)
      ⟨none, some ⟨none, some "at", some "rt", some 0, []⟩⟩ =
      { decision := .unauthorized
        reqUser := some (.fed ⟨none, some "at", some "rt", some 0, []⟩)
        refreshCalls := 0 } :=
  falsy_expires_at_unauthorized 1000 (.ok ⟨none, none, none⟩)
    ⟨none, some "at", some "rt", some 0, []⟩ _ rfl (Or.inr rfl)

/-- C5: `POST /login` answers 400 when email or password is falsy (missing
or empty), 500 with a fixed message — independent of the thrown detail —
when the validator throws, 401 when it finds no user, and 200 with the user
stored in the session under the fixed key when it does. -/
theorem postLogin_spec (validate : ValidateOracle)
    (email password : Option String) (s : Option DemoUser) :
    ((jsFalsyStr email = true ∨ jsFalsyStr password = true) →
      postLogin validate email password s =
        ⟨400, "Email и пароль обязательны", none, s⟩) ∧
    (∀ e p, email = some e → password = some p → e ≠ "" → p ≠ "" →
      ((∀ msg, validate e p = .error msg →
          postLogin validate email password s =
            ⟨500, "Ошибка входа в систему", none, s⟩) ∧
       (validate e p = .ok none →
          postLogin validate email password s =
            ⟨401, "Неверный email или пароль", none, s⟩) ∧
       (∀ u, validate e p = .ok (some u) →
          postLogin validate email password s =
            ⟨200, "Успешный вход в систему", some u, some u⟩))) := by
  constructor
  · intro h
    have hcond : (jsFalsyStr email || jsFalsyStr password) = true := by
      rcases h with h | h <;> simp [h]
    simp [postLogin, hcond]
  · rintro e p rfl rfl he hp
    have hcond : (jsFalsyStr (some e) || jsFalsyStr (some p)) = false := by
      simp [jsFalsyStr, he, hp]
    refine ⟨?_, ?_, ?_⟩
    · intro msg hv
      simp [postLogin, hcond, hv]
    · intro hv
      simp [postLogin, hcond, hv]
    · intro u hv
      simp [postLogin, hcond, hv]

/-- Witness for C5: empty email → 400; unknown credentials → 401; valid
credentials → 200 with the user in the session; a throwing validator →
500 with the fixed message, the thrown detail absent. -/
theorem postLogin_spec_witness :
    postLogin demoValidate (some "") (some "x") none =
      ⟨400, "Email и пароль обязательны", none, none⟩ ∧
    postLogin demoValidate (some "z") (some "x") none =
      ⟨401, "Неверный email или пароль", none, none⟩ ∧
    postLogin demoValidate (some "a@b") (some "pw") none =
      ⟨200, "Успешный вход в систему", some ⟨"u1", "a@b"⟩, some ⟨"u1", "a@b"⟩⟩ ∧
    postLogin demoValidate (some "boom") (some "x") none =
      ⟨500, "Ошибка входа в систему", none, none⟩ :=
  ⟨(postLogin_spec demoValidate (some "") (some "x") none).1 (Or.inl (by decide)),
   ((postLogin_spec demoValidate (some "z") (some "x") none).2 "z" "x"
      rfl rfl (by decide) (by decide)).2.1 (by simp [demoValidate]),
   ((postLogin_spec demoValidate (some "a@b") (some "pw") none).2 "a@b" "pw"
      rfl rfl (by decide) (by decide)).2.2 ⟨"u1", "a@b"⟩ (by simp [demoValidate]),
   ((postLogin_spec demoValidate (some "boom") (some "x") none).2 "boom" "x"
      rfl rfl (by decide) (by decide)).1 "secret exception detail"
      (by simp [demoValidate])⟩

/-- C7 counterexample: when the store reports an error on destroy, the
handler answers 500 but the session entry survives, so a subsequent
`GET /auth/user` on the same session id still returns the user, not 401 —
refuting "in every case the session is cleared such that a subsequent
GET /auth/user returns 401". -/
theorem postLogout_counterexample :
    (postLogout [("s1", ⟨some ⟨"u1", "a@b"⟩, none⟩)] "s1" (some "db down")).1.status
      = 500 ∧
    getAuthUser (loadRequest
        (postLogout [("s1", ⟨some ⟨"u1", "a@b"⟩, none⟩)] "s1" (some "db down")).2 "s1")
      = .ok (.demo ⟨"u1", "a@b"⟩) ∧
    getAuthUser (loadRequest
        (postLogout [("s1", ⟨some ⟨"u1", "a@b"⟩, none⟩)] "s1" (some "db down")).2 "s1")
      ≠ .unauthorized := by
  refine ⟨rfl, rfl, ?_⟩
  decide

/-- C7 (amended): `POST /logout` destroys the session store entry,
returning 500 if the store reports an error and 200 with a success message
otherwise; when the destroy succeeds the session entry is gone and a
subsequent `GET /auth/user` on the same session returns 401. -/
theorem postLogout_spec (store : SessionStore) (sid : String)
    (storeError : Option String) :
    (∀ msg, storeError = some msg →
      postLogout store sid storeError =
        (⟨500, "Ошибка выхода из системы"⟩, store)) ∧
    (storeError = none →
      (postLogout store sid storeError).1 =
        ⟨200, "Успешный выход из системы"⟩ ∧
      storeLookup (postLogout store sid storeError).2 sid = none ∧
      getAuthUser (loadRequest (postLogout store sid storeError).2 sid) =
        .unauthorized) := by
  constructor
  · rintro msg rfl
    rfl
  · rintro rfl
    have hfind :
        (store.filter (fun kv => kv.1 ≠ sid)).find? (fun kv => kv.1 = sid) = none := by
      rw [List.find?_eq_none]
      intro x hx
      have hmem := (List.mem_filter.mp hx).2
      simp only [decide_not, Bool.not_eq_true'] at hmem
      simpa using hmem
    refine ⟨rfl, ?_, ?_⟩
    · show storeLookup (store.filter (fun kv => kv.1 ≠ sid)) sid = none
      unfold storeLookup
      rw [hfind]
    · show getAuthUser (loadRequest (store.filter (fun kv => kv.1 ≠ sid)) sid) =
        .unauthorized
      unfold getAuthUser loadRequest storeLookup
      rw [hfind]

/-- Witness for C7 (amended): a successful destroy on a one-entry store
answers 200, removes the entry, and the follow-up user query is 401. -/
theorem postLogout_spec_witness :
    (postLogout [("s1", ⟨some ⟨"u1", "a@b"⟩, none⟩)] "s1" none).1 =
      ⟨200, "Успешный выход из системы"⟩ ∧
    storeLookup (postLogout [("s1", ⟨some ⟨"u1", "a@b"⟩, none⟩)] "s1" none).2 "s1"
      = none ∧
    getAuthUser (loadRequest
        (postLogout [("s1", ⟨some ⟨"u1", "a@b"⟩, none⟩)] "s1" none).2 "s1")
      = .unauthorized :=
  (postLogout_spec [("s1", ⟨some ⟨"u1", "a@b"⟩, none⟩)] "s1" none).2 rfl

/-- C10: `updateUserSession` assigns exactly claims, access_token,
refresh_token and expires_at (the last from the `exp` of the new claims) and
leaves every other property of the user object unchanged; each assignment
is unconditional, so a token response without a refresh_token erases the
stored one, and an expired principal so updated is afterwards rejected
with 401. -/
theorem updateUserSession_exact (u : FedUser) (t : TokenResponse) :
    (updateUserSession u t).claims = t.claims ∧
    (updateUserSession u t).access_token = t.access_token ∧
    (updateUserSession u t).refresh_token = t.refresh_token ∧
    (updateUserSession u t).expires_at = t.claims.map IdClaims.exp ∧
    (updateUserSession u t).other = u.other ∧
    (t.refresh_token = none →
      ∀ (now e : Nat) (refresh : RefreshOracle),
        (updateUserSession u t).expires_at = some e → e ≠ 0 → e < now →
        (isAuthenticated true now refresh
            ⟨none, some (updateUserSession u t)⟩).decision = .unauthorized) := by
  refine ⟨rfl, rfl, rfl, rfl, rfl, ?_⟩
  intro hrt now e refresh hexp hne hlt
  have hnotle : ¬ now ≤ e := by omega
  have hfr : jsFalsyStr (updateUserSession u t).refresh_token = true := by
    simp [updateUserSession, hrt, jsFalsyStr]
  simp [isAuthenticated, jsFalsyNat, hexp, hne, hnotle, hfr]

/-- Witness for C10: updating a user holding extra properties by a token
response with `exp = 7` and no refresh_token keeps the extras and, once 7
has passed, the principal is rejected. -/
theorem updateUserSession_exact_witness :
    (updateUserSession ⟨none, some "at", some "rt", some 5, [("k", "v")]⟩
        ⟨some ⟨none, none, none, none, none, 7⟩, some "at2", none⟩).other =
      [("k", "v")] ∧
    (isAuthenticated true 100 (.ok ⟨none, none, none⟩)
      ⟨none, some (updateUserSession ⟨none, some "at", some "rt", some 5, [("k", "v")]⟩
        ⟨some ⟨none, none, none, none, none, 7⟩, some "at2", none⟩)⟩).decision =
      .unauthorized :=
  ⟨(updateUserSession_exact ⟨none, some "at", some "rt", some 5, [("k", "v")]⟩
      ⟨some ⟨none, none, none, none, none, 7⟩, some "at2", none⟩).2.2.2.2.1,
   (updateUserSession_exact ⟨none, some "at", some "rt", some 5, [("k", "v")]⟩
      ⟨some ⟨none, none, none, none, none, 7⟩, some "at2", none⟩).2.2.2.2.2
     rfl 100 7 (.ok ⟨none, none, none⟩) rfl (by decide) (by decide)⟩

theorem mem_passportUse (registry : List StrategyConfig) (a s : StrategyConfig)
    (h : s ∈ passportUse registry a) : s ∈ registry ∨ s = a := by
  unfold passportUse at h
  split at h
  · obtain ⟨r, hr, hrs⟩ := List.mem_map.mp h
    by_cases hn : r.name = a.name
    · right
      rw [if_pos hn] at hrs
      exact hrs.symm
    · left
      rw [if_neg hn] at hrs
      exact hrs ▸ hr
  · rcases List.mem_append.mp h with h' | h'
    · exact Or.inl h'
    · exact Or.inr (List.mem_singleton.mp h')

theorem foldl_passportUse_mem (L R : List StrategyConfig) (s : StrategyConfig)
    (h : s ∈ L.foldl passportUse R) : s ∈ R ∨ s ∈ L := by
  induction L generalizing R with
  | nil => exact Or.inl h
  | cons a L ih =>
    rcases ih (passportUse R a) h with h' | h'
    · rcases mem_passportUse R a s h' with h'' | h''
      · exact Or.inl h''
      · exact Or.inr (by simp [h''])
    · exact Or.inr (List.mem_cons_of_mem a h')

theorem names_passportUse (registry : List StrategyConfig) (a : StrategyConfig) :
    ((passportUse registry a).map StrategyConfig.name =
        registry.map StrategyConfig.name ∧
      a.name ∈ registry.map StrategyConfig.name) ∨
    ((passportUse registry a).map StrategyConfig.name =
        registry.map StrategyConfig.name ++ [a.name] ∧
      a.name ∉ registry.map StrategyConfig.name) := by
  unfold passportUse
  by_cases hany : registry.any (fun r => r.name = a.name) = true
  · left
    obtain ⟨r, hr, hrn⟩ := List.any_eq_true.mp hany
    refine ⟨?_, ?_⟩
    · rw [if_pos hany, List.map_map]
      apply List.map_congr_left
      intro x _
      by_cases hx : x.name = a.name
      · simp [Function.comp, hx]
      · simp [Function.comp, hx]
    · exact List.mem_map.mpr ⟨r, hr, by simpa using hrn⟩
  · right
    rw [if_neg hany]
    refine ⟨by simp, ?_⟩
    intro hmem
    obtain ⟨r, hr, hrn⟩ := List.mem_map.mp hmem
    exact hany (List.any_eq_true.mpr ⟨r, hr, by simp [hrn]⟩)

theorem names_nodup_passportUse (registry : List StrategyConfig)
    (a : StrategyConfig) (h : (registry.map StrategyConfig.name).Nodup) :
    ((passportUse registry a).map StrategyConfig.name).Nodup := by
  rcases names_passportUse registry a with ⟨heq, _⟩ | ⟨heq, hnm⟩
  · rw [heq]; exact h
  · rw [heq]
    simp [List.nodup_append, h, hnm]

theorem names_mono_passportUse (registry : List StrategyConfig)
    (a : StrategyConfig) (n : String)
    (h : n ∈ registry.map StrategyConfig.name) :
    n ∈ (passportUse registry a).map StrategyConfig.name := by
  rcases names_passportUse registry a with ⟨heq, _⟩ | ⟨heq, _⟩ <;>
    rw [heq] <;> simp [h]

theorem name_mem_passportUse (registry : List StrategyConfig)
    (a : StrategyConfig) :
    a.name ∈ (passportUse registry a).map StrategyConfig.name := by
  rcases names_passportUse registry a with ⟨heq, hmem⟩ | ⟨heq, _⟩
  · rw [heq]; exact hmem
  · rw [heq]; simp

theorem names_nodup_foldl (L R : List StrategyConfig)
    (h : (R.map StrategyConfig.name).Nodup) :
    ((L.foldl passportUse R).map StrategyConfig.name).Nodup := by
  induction L generalizing R with
  | nil => exact h
  | cons a L ih => exact ih (passportUse R a) (names_nodup_passportUse R a h)

theorem names_mono_foldl (L R : List StrategyConfig) (n : String)
    (h : n ∈ R.map StrategyConfig.name) :
    n ∈ (L.foldl passportUse R).map StrategyConfig.name := by
  induction L generalizing R with
  | nil => exact h
  | cons a L ih => exact ih (passportUse R a) (names_mono_passportUse R a n h)

theorem name_mem_foldl (L R : List StrategyConfig) (a : StrategyConfig)
    (ha : a ∈ L) :
    a.name ∈ (L.foldl passportUse R).map StrategyConfig.name := by
  induction L generalizing R with
  | nil => cases ha
  | cons b L ih =>
    rcases List.mem_cons.mp ha with rfl | ha'
    · exact names_mono_foldl L (passportUse R a) a.name (name_mem_passportUse R a)
    · exact ih (passportUse R b) ha'

theorem countP_name_le_one (l : List StrategyConfig) (n : String)
    (h : (l.map StrategyConfig.name).Nodup) :
    l.countP (fun s => s.name = n) ≤ 1 := by
  induction l with
  | nil => simp
  | cons a l ih =>
    rw [List.map_cons, List.nodup_cons] at h
    rw [List.countP_cons]
    by_cases ha : a.name = n
    · have hzero : l.countP (fun s => s.name = n) = 0 := by
        rw [List.countP_eq_zero]
        intro x hx
        simp only [decide_eq_true_eq]
        intro hxn
        exact h.1 (List.mem_map.mpr ⟨x, hx, by rw [hxn, ha]⟩)
      simp [hzero, ha]
    · have := ih h.2
      simp [ha]
      omega

theorem strategyFor_name_inj (d1 d2 : String)
    (h : (strategyFor d1).name = (strategyFor d2).name) : d1 = d2 := by
  have hdata := congrArg String.data h
  simp only [strategyFor] at hdata
  rw [String.data_append, String.data_append] at hdata
  exact String.ext (List.append_cancel_left hdata)

/-- C8: for every domain of the comma-separated allowed-hostname list the
registry built by the setup loop holds exactly one strategy named for that
domain; any registry entry bearing that name is the strategy built for the
domain, whose callback URL is `https://{domain}/api/callback`; and
distinct domains yield distinct strategy names. -/
theorem strategy_registration (domains d : String)
    (hd : d ∈ splitDomains domains) :
    (registryAfterSetup domains).countP
        (fun s => s.name = (strategyFor d).name) = 1 ∧
    (∀ s ∈ registryAfterSetup domains,
        s.name = (strategyFor d).name → s = strategyFor d) ∧
    (strategyFor d).name = "replitauth:" ++ d ∧
    (strategyFor d).callbackURL = "https://" ++ d ++ "/api/callback" ∧
    (∀ d1 d2 : String,
        (strategyFor d1).name = (strategyFor d2).name → d1 = d2) := by
  have hmemL : strategyFor d ∈ registerStrategies domains :=
    List.mem_map.mpr ⟨d, hd, rfl⟩
  have hnodup : ((registryAfterSetup domains).map StrategyConfig.name).Nodup :=
    names_nodup_foldl (registerStrategies domains) [] (by simp)
  have hnamemem :
      (strategyFor d).name ∈
        ((registryAfterSetup domains).map StrategyConfig.name) :=
    name_mem_foldl (registerStrategies domains) [] (strategyFor d) hmemL
  have hsource : ∀ s ∈ registryAfterSetup domains,
      s.name = (strategyFor d).name → s = strategyFor d := by
    intro s hs hsn
    rcases foldl_passportUse_mem (registerStrategies domains) [] s hs with h0 | hL
    · cases h0
    · obtain ⟨d', _, rfl⟩ := List.mem_map.mp hL
      rw [strategyFor_name_inj d' d hsn]
  refine ⟨?_, hsource, rfl, rfl, strategyFor_name_inj⟩
  obtain ⟨s, hs, hsn⟩ := List.mem_map.mp hnamemem
  refine Nat.le_antisymm (countP_name_le_one _ _ hnodup) ?_
  have : 0 < (registryAfterSetup domains).countP
      (fun s => s.name = (strategyFor d).name) :=
    List.countP_pos_iff.mpr ⟨s, hs, by simp [hsn]⟩
  omega

/-- Witness for C8, at the default `REPLIT_DOMAINS` value of the module
(lines 14-16) and its middle domain. -/
theorem strategy_registration_witness :
    (registryAfterSetup "replit.app,replit.dev,replit.com").countP
        (fun s => s.name = (strategyFor "replit.dev").name) = 1 ∧
    (∀ s ∈ registryAfterSetup "replit.app,replit.dev,replit.com",
        s.name = (strategyFor "replit.dev").name → s = strategyFor "replit.dev") ∧
    (strategyFor "replit.dev").name = "replitauth:" ++ "replit.dev" ∧
    (strategyFor "replit.dev").callbackURL =
      "https://" ++ "replit.dev" ++ "/api/callback" ∧
    (∀ d1 d2 : String,
        (strategyFor d1).name = (strategyFor d2).name → d1 = d2) :=
  strategy_registration "replit.app,replit.dev,replit.com" "replit.dev"
    (by decide)

end ReplitAuth
